import Mathlib

/-!
Verification development for the tool-augmented conversation orchestrator
(`backend/app/services/ai_assistant/`): `Tool` (tool.py), `Server`
(server.py) and `ChatSession` (chat_session.py).

The Python code is shallowly embedded: every method becomes an executable
Lean function over explicit state, external collaborators (the LLM client,
the MCP transport, the scraper, chroma) become an `Env` of oracle
functions, and Python exceptions become `Except String` values.  The
message list passed to each LLM call is additionally recorded in a log
(`llmLog`) so that ordering properties about "which history a model call
consumed" are statable; this log is pure instrumentation and mirrors no
Python state.
-/

/-- JSON values as produced by Python `json.loads`.  Numbers keep their
source token (e.g. `"1"`, `"2.5"`): no claim inspects numeric values, and
this avoids committing to floating-point semantics. -/
inductive Json where
  | null : Json
  | bool : Bool → Json
  | num : String → Json
  | str : String → Json
  | arr : List Json → Json
  | obj : List (String × Json) → Json

/-- JSON whitespace, as accepted by Python `json.loads`. -/
def isJsonWs (c : Char) : Bool :=
  c == ' ' || c == '\t' || c == '\n' || c == '\r'

/-- Skip leading JSON whitespace. -/
def skipWs (cs : List Char) : List Char :=
  cs.dropWhile isJsonWs

/-- Value of one hexadecimal digit. -/
def hexVal (c : Char) : Option Nat :=
  if c.isDigit then some (c.toNat - 48)
  else if 'a' ≤ c ∧ c ≤ 'f' then some (c.toNat - 87)
  else if 'A' ≤ c ∧ c ≤ 'F' then some (c.toNat - 55)
  else none

/-- Single-character JSON string escapes. -/
def escChar : Char → Option Char
  | '\x22' => some '\x22'
  | '\\' => some '\\'
  | '/' => some '/'
  | 'b' => some (Char.ofNat 8)
  | 'f' => some (Char.ofNat 12)
  | 'n' => some '\n'
  | 'r' => some '\r'
  | 't' => some '\t'
  | _ => none

/-- Parse the body of a JSON string (after the opening quote), returning
the decoded characters and the remaining input.  Fuel-structural so that
the kernel can evaluate it. -/
def parseStringChars : Nat → List Char → Option (List Char × List Char)
  | 0, _ => none
  | fuel + 1, cs =>
    match cs with
    | [] => none
    | c :: rest =>
      if c = '\x22' then some ([], rest)
      else if c = '\\' then
        match rest with
        | 'u' :: h1 :: h2 :: h3 :: h4 :: rest2 =>
          match hexVal h1, hexVal h2, hexVal h3, hexVal h4 with
          | some a, some b, some c2, some d =>
            match parseStringChars fuel rest2 with
            | some (sc, r) =>
              some (Char.ofNat (((a * 16 + b) * 16 + c2) * 16 + d) :: sc, r)
            | none => none
          | _, _, _, _ => none
        | e :: rest2 =>
          match escChar e with
          | some ec =>
            match parseStringChars fuel rest2 with
            | some (sc, r) => some (ec :: sc, r)
            | none => none
          | none => none
        | [] => none
      else
        match parseStringChars fuel rest with
        | some (sc, r) => some (c :: sc, r)
        | none => none

/-- Parse an optional fraction part `.digits` of a JSON number. -/
def parseFracPart : List Char → Option (List Char × List Char)
  | '.' :: r =>
    let fs := r.takeWhile (fun c => c.isDigit)
    if fs.isEmpty then none else some ('.' :: fs, r.drop fs.length)
  | cs => some ([], cs)

/-- Parse an optional exponent part of a JSON number. -/
def parseExpPart : List Char → Option (List Char × List Char)
  | e :: r =>
    if e = 'e' ∨ e = 'E' then
      let sr := match r with
        | '+' :: r2 => (['+'], r2)
        | '-' :: r2 => (['-'], r2)
        | _ => (([] : List Char), r)
      let ds := sr.2.takeWhile (fun c => c.isDigit)
      if ds.isEmpty then none
      else some (e :: (sr.1 ++ ds), sr.2.drop ds.length)
    else some ([], e :: r)
  | [] => some ([], [])

/-- Parse a JSON number token (sign, digits, optional fraction and
exponent), returning the raw token.  (Python additionally rejects
redundant leading zeros; no claim depends on that refinement.) -/
def parseNumberToken (cs : List Char) : Option (List Char × List Char) :=
  let sr := match cs with
    | '-' :: r => (['-'], r)
    | _ => (([] : List Char), cs)
  let ds := sr.2.takeWhile (fun c => c.isDigit)
  if ds.isEmpty then none
  else
    match parseFracPart (sr.2.drop ds.length) with
    | none => none
    | some (f, cs3) =>
      match parseExpPart cs3 with
      | none => none
      | some (ex, cs4) => some (sr.1 ++ ds ++ f ++ ex, cs4)

/-- Parsing modes of the recursive-descent JSON parser: a value, the
inside of an array (first element / subsequent elements), the inside of
an object (first member / subsequent members). -/
inductive PMode where
  | val : PMode
  | elems : PMode
  | elemsTail : PMode
  | members : PMode
  | membersTail : PMode

/-- Recursive-descent JSON parser, structurally recursive on fuel.  In
mode `.elems`/`.elemsTail` the result is `Json.arr` of the remaining
elements; in `.members`/`.membersTail` it is `Json.obj` of the remaining
members. -/
def parseCore : Nat → PMode → List Char → Option (Json × List Char)
  | 0, _, _ => none
  | fuel + 1, PMode.val, cs =>
    match skipWs cs with
    | [] => none
    | c :: rest =>
      if c = '\x7b' then parseCore fuel PMode.members rest
      else if c = '[' then parseCore fuel PMode.elems rest
      else if c = '\x22' then
        match parseStringChars (rest.length + 1) rest with
        | some (sc, r) => some (Json.str (String.mk sc), r)
        | none => none
      else if c = 't' then
        match rest with
        | 'r' :: 'u' :: 'e' :: r => some (Json.bool true, r)
        | _ => none
      else if c = 'f' then
        match rest with
        | 'a' :: 'l' :: 's' :: 'e' :: r => some (Json.bool false, r)
        | _ => none
      else if c = 'n' then
        match rest with
        | 'u' :: 'l' :: 'l' :: r => some (Json.null, r)
        | _ => none
      else if c = '-' ∨ c.isDigit then
        match parseNumberToken (c :: rest) with
        | some (tok, r) => some (Json.num (String.mk tok), r)
        | none => none
      else none
  | fuel + 1, PMode.elems, cs =>
    match skipWs cs with
    | ']' :: r => some (Json.arr [], r)
    | cs2 =>
      match parseCore fuel PMode.val cs2 with
      | some (v, r) =>
        match parseCore fuel PMode.elemsTail r with
        | some (Json.arr vs, r2) => some (Json.arr (v :: vs), r2)
        | _ => none
      | none => none
  | fuel + 1, PMode.elemsTail, cs =>
    match skipWs cs with
    | ']' :: r => some (Json.arr [], r)
    | ',' :: r =>
      match parseCore fuel PMode.val r with
      | some (v, r2) =>
        match parseCore fuel PMode.elemsTail r2 with
        | some (Json.arr vs, r3) => some (Json.arr (v :: vs), r3)
        | _ => none
      | none => none
    | _ => none
  | fuel + 1, PMode.members, cs =>
    match skipWs cs with
    | '\x7d' :: r => some (Json.obj [], r)
    | '\x22' :: r =>
      match parseStringChars (r.length + 1) r with
      | some (kc, r2) =>
        match skipWs r2 with
        | ':' :: r3 =>
          match parseCore fuel PMode.val r3 with
          | some (v, r4) =>
            match parseCore fuel PMode.membersTail r4 with
            | some (Json.obj kvs, r5) =>
              some (Json.obj ((String.mk kc, v) :: kvs), r5)
            | _ => none
          | none => none
        | _ => none
      | none => none
    | _ => none
  | fuel + 1, PMode.membersTail, cs =>
    match skipWs cs with
    | '\x7d' :: r => some (Json.obj [], r)
    | ',' :: r =>
      match skipWs r with
      | '\x22' :: r1 =>
        match parseStringChars (r1.length + 1) r1 with
        | some (kc, r2) =>
          match skipWs r2 with
          | ':' :: r3 =>
            match parseCore fuel PMode.val r3 with
            | some (v, r4) =>
              match parseCore fuel PMode.membersTail r4 with
              | some (Json.obj kvs, r5) =>
                some (Json.obj ((String.mk kc, v) :: kvs), r5)
              | _ => none
            | none => none
          | _ => none
        | none => none
      | _ => none
    | _ => none

/-- Python `json.loads`: parse the whole text as one JSON value, allowing
surrounding whitespace; `none` models `json.JSONDecodeError`. -/
def json_loads (s : String) : Option Json :=
  match parseCore (2 * s.data.length + 4) PMode.val s.data with
  | some (v, rest) => if (skipWs rest).isEmpty then some v else none
  | none => none

/-- Auxiliary scan for the substring test: does `needle` occur as a
contiguous run of `hay`? -/
def infixScan (needle : List Char) : List Char → Bool
  | [] => needle.isEmpty
  | c :: rest => needle.isPrefixOf (c :: rest) || infixScan needle rest

/-- Python substring test `needle in hay` on strings. -/
def pyInStr (needle hay : String) : Bool :=
  infixScan needle.data hay.data

/-- Python `str.lower()` (ASCII case folding, as used on the inputs of
this code base). -/
def pyLower (s : String) : String :=
  String.mk (s.data.map Char.toLower)

/-- Python f-string rendering of a JSON value.  Faithful for the atomic
values (`str` renders without quotes, `True`/`False`/`None` for
bool/null, the numeric token for numbers); composite values are
abstracted to a fixed marker -- Python would render the full list/dict
repr, but no claim exercises a composite value in an f-string. -/
def pyStr : Json → String
  | Json.null => "None"
  | Json.bool true => "True"
  | Json.bool false => "False"
  | Json.num t => t
  | Json.str s => s
  | Json.arr _ => "[...]"
  | Json.obj _ => "\x7b...\x7d"

/-- Python membership test `key in value` for a string key against a
parsed JSON value: key lookup for dicts, element equality for lists,
substring test for strings, and `TypeError` for the other types. -/
def pyContains (key : String) : Json → Except String Bool
  | Json.obj kvs => Except.ok (kvs.any (fun kv => kv.1 == key))
  | Json.arr xs =>
    Except.ok (xs.any (fun x => match x with
      | Json.str s => s == key
      | _ => false))
  | Json.str s => Except.ok (pyInStr key s)
  | _ => Except.error "TypeError: argument is not iterable"

/-- Last-wins association lookup, matching the fact that Python builds a
dict from JSON members (a duplicated key keeps its last value). -/
def jsonLookup (kvs : List (String × Json)) (key : String) : Option Json :=
  (kvs.reverse.find? (fun kv => kv.1 == key)).map (fun kv => kv.2)

/-- Python subscript `value[key]` with a string key: dict lookup
(`KeyError` when absent), `TypeError` for every other type. -/
def pySubscript (key : String) : Json → Except String Json
  | Json.obj kvs =>
    match jsonLookup kvs key with
    | some v => Except.ok v
    | none => Except.error ("KeyError: " ++ key)
  | _ => Except.error "TypeError: value is not subscriptable by a string"

/-- True exactly when an `Except` value is an error (a raised Python
exception in this embedding). -/
def isErr {ε α : Type} : Except ε α → Bool
  | Except.error _ => true
  | Except.ok _ => false

/-- A tool advertised by a server (tool.py, class `Tool`): name, human
description and JSON parameter schema. -/
structure Tool where
  name : String
  description : String
  input_schema : Json

/-- Membership of a JSON string in the `required` array of a schema, as
tested by Python `param_name in required_list`. -/
def requiredHas (xs : List Json) (pname : String) : Bool :=
  xs.any (fun x => match x with
    | Json.str s => s == pname
    | _ => false)

/-- `Tool.format_for_llm` (tool.py lines 26-47): renders one argument
line per entry of `input_schema["properties"]`, using the property's
`description` (default `"No description"`), appending `" (required)"`
when the parameter is listed in `input_schema["required"]` (default
`[]`).  The MCP protocol guarantees the schema is a JSON object; a
non-object property value yields the default description (Python would
raise there, a path no schema of this repository reaches). -/
def Tool.format_for_llm (t : Tool) : String :=
  let props : List (String × Json) :=
    match t.input_schema with
    | Json.obj kvs =>
      match jsonLookup kvs "properties" with
      | some (Json.obj ps) => ps
      | _ => []
    | _ => []
  let req : List Json :=
    match t.input_schema with
    | Json.obj kvs =>
      match jsonLookup kvs "required" with
      | some (Json.arr xs) => xs
      | _ => []
    | _ => []
  let args_desc : List String := props.map (fun p =>
    let d : String :=
      match p.2 with
      | Json.obj pk =>
        match jsonLookup pk "description" with
        | some dv => pyStr dv
        | none => "No description"
      | _ => "No description"
    let base := "- " ++ p.1 ++ ": " ++ d
    if requiredHas req p.1 then base ++ " (required)" else base)
  "\nTool: " ++ t.name ++ "\nDescription: " ++ t.description ++
    "\nArguments:\n" ++ String.intercalate "\n" args_desc ++ "\n"

/-- The opaque result object returned by `session.call_tool`;
`asString` is its Python `str()` rendering, used when the result is
folded into a system message. -/
structure ToolResult where
  asString : String
deriving DecidableEq, Repr

/-- One scraped MCP-server record: the `name`/`link`/`description`
metadata triple used by the special MCP branch of `process_message`. -/
structure McpRecord where
  name : String
  link : String
  description : String
deriving DecidableEq, Repr

/-- Content of one conversation message.  Normally a string; the MCP
special branch of `process_message` appends (and returns) a list of
records instead (chat_session.py lines 123-131). -/
inductive Content where
  | str : String → Content
  | records : List McpRecord → Content
deriving DecidableEq, Repr

/-- One message of the conversation history: a role (`"system"`,
`"user"`, `"assistant"`) and its content. -/
structure Message where
  role : String
  content : Content
deriving DecidableEq, Repr

/-- The mutable state of one `Server` (server.py): its name and the
transport/handshake session handle (`some ()` when live, `none`
otherwise).  The launch config, exit stack and embedded LLM client carry
no behavior relevant to any claim. -/
structure Server where
  name : String
  session : Option Unit
deriving DecidableEq, Repr

/-- Environment behavior of one server's external process: the outcome
of the transport/handshake (`initialize`), the response of the live
session's `list_tools` RPC (a list of `(label, tools)` items, mirroring
the tuple iteration of server.py lines 97-100), the outcome of each
`session.call_tool` attempt (indexed by tool name, arguments and attempt
number), and whether `exit_stack.aclose()` raises during cleanup. -/
structure ServerBehavior where
  initOutcome : Except String Unit
  toolsResponse : Except String (List (String × List Tool))
  callTool : Json → Json → Nat → Except String ToolResult
  acloseRaises : Bool

/-- The tool-collection loop of `Server.list_tools` (server.py lines
95-103): keep the tools of every `("tools", ...)` item of the response.
(Every item of the response is a tuple, so the `isinstance` guard is
always true.) -/
def collectTools (resp : List (String × List Tool)) : List Tool :=
  resp.foldr (fun item acc =>
    (if item.1 == "tools" then item.2 else []) ++ acc) []

/-- `Server.list_tools` (server.py lines 82-103): raises `RuntimeError`
when the session is absent, otherwise queries the live session and
collects the advertised tools. -/
def Server.list_tools (s : Server) (b : ServerBehavior) :
    Except String (List Tool) :=
  match s.session with
  | none => Except.error ("Server " ++ s.name ++ " not initialized")
  | some _ =>
    match b.toolsResponse with
    | Except.ok resp => Except.ok (collectTools resp)
    | Except.error e => Except.error e

/-- The retry loop of `Server.execute_tool` (server.py lines 130-148),
compiled to structural recursion: `fuel` is the number of retries still
allowed (`retries - attempt`, so the loop guard `attempt <= retries`
becomes `fuel > 0` at each failure).  Returns the outcome, the number of
underlying `session.call_tool` attempts made, and the list of
inter-attempt sleep durations (each sleep is the fixed `delay`). -/
def execAttempts (call : Nat → Except String ToolResult) (delay : ℚ) :
    Nat → Nat → Except String ToolResult × Nat × List ℚ
  | attempt, fuel =>
    match call attempt with
    | Except.ok r => (Except.ok r, 1, [])
    | Except.error e =>
      match fuel with
      | 0 => (Except.error e, 1, [])
      | f + 1 =>
        let rest := execAttempts call delay (attempt + 1) f
        (rest.1, rest.2.1 + 1, delay :: rest.2.2)

/-- `Server.execute_tool` (server.py lines 105-148) with its attempt
count and sleep log exposed for the observability properties: raises
`RuntimeError` when the session is absent, otherwise runs the bounded
retry loop over `session.call_tool`. -/
def Server.execute_tool_runs (s : Server) (b : ServerBehavior)
    (tn args : Json) (retries : Nat) (delay : ℚ) :
    Except String ToolResult × Nat × List ℚ :=
  match s.session with
  | none => (Except.error ("Server " ++ s.name ++ " not initialized"), 0, [])
  | some _ => execAttempts (b.callTool tn args) delay 0 retries

/-- `Server.execute_tool`: the caller-visible outcome of the retry loop
(defaults in the source: `retries = 2`, `delay = 1.0`). -/
def Server.execute_tool (s : Server) (b : ServerBehavior)
    (tn args : Json) (retries : Nat) (delay : ℚ) :
    Except String ToolResult :=
  (Server.execute_tool_runs s b tn args retries delay).1

/-- The body of `Server.cleanup` before its `except` clause (server.py
lines 153-158): when a session is held, close the exit stack (which may
itself raise -- `acloseRaises`) and only then clear the session. -/
def Server.cleanupBody (s : Server) (acloseRaises : Bool) :
    Except String Server :=
  match s.session with
  | none => Except.ok s
  | some _ =>
    if acloseRaises then
      Except.error ("Error during cleanup of server " ++ s.name)
    else Except.ok { s with session := none }

/-- `Server.cleanup` (server.py lines 150-160): the body runs under the
per-server cleanup lock and every error is swallowed (logged only), so
the call itself never raises; on a swallowed close error the session
assignment was not reached and the handle reference survives. -/
def Server.cleanup (s : Server) (acloseRaises : Bool) : Server :=
  match Server.cleanupBody s acloseRaises with
  | Except.ok s2 => s2
  | Except.error _ => s

/-- Iterated `cleanup` calls, one per element of `flags` (each flag is
that call's `aclose` outcome). -/
def cleanupCalls (s : Server) (flags : List Bool) : Server :=
  flags.foldl Server.cleanup s

/-- `Server.initialize` (server.py lines 44-80): on a transport or
handshake failure the server cleans itself up and re-raises; on success
the session handle is stored.  Returns the new server state together
with the outcome.  (Named `initServer` because `initialize` is a Lean
keyword.)  Command resolution (`shutil.which`), the stdio transport and
the MCP handshake are summarized by the environment's `initOutcome`. -/
def Server.initServer (s : Server) (b : ServerBehavior) :
    Server × Except String Unit :=
  match b.initOutcome with
  | Except.ok _ => ({ s with session := some () }, Except.ok ())
  | Except.error e => (Server.cleanup s b.acloseRaises, Except.error e)

/-- `s.startswith(p)` (kernel-friendly, over the character list). -/
def strStartsWith (s p : String) : Bool :=
  p.data.isPrefixOf s.data

/-- `s.endswith(p)` (kernel-friendly, over the character list). -/
def strEndsWith (s p : String) : Bool :=
  p.data.reverse.isPrefixOf s.data.reverse

/-- Python slice `s[n:]`. -/
def strDropChars (s : String) (n : Nat) : String :=
  String.mk (s.data.drop n)

/-- Python slice `s[:-n]`. -/
def strDropRight (s : String) (n : Nat) : String :=
  String.mk (s.data.take (s.data.length - n))

/-- The environment of one chat session: all external collaborators as
deterministic oracles.  `llm n msgs` is the outcome of the `n`-th
`LLMClient.get_response` call of the session when handed the history
`msgs`; `behs` pairs positionally with the session's servers; `scrape`,
`storeOutcome` and `search` are the outcomes of
`scrape_awesome_mcp_servers`, `store_mcps_in_chroma` and
`semantic_search_mcps` (search results reduced to their
name/link/description metadata, which is all the code reads);
`subwayFormat` is the `plan_subway_trip` result summarizer of
chat_session.py lines 196-246 (duck-typed inspection of the result
object with an internal catch-all, hence total). -/
structure Env where
  llm : Nat → List Message → Except String String
  behs : List ServerBehavior
  scrape : Except String (List McpRecord)
  storeOutcome : Except String Unit
  search : Except String (List McpRecord)
  subwayFormat : ToolResult → String

/-- The state of one `ChatSession`: the message history and the servers.
`llmLog` is observational instrumentation: the history passed to each
LLM call, in call order (its length is the number of calls made). -/
structure ChatSession where
  messages : List Message
  servers : List Server
  llmLog : List (List Message)

/-- The tool-aggregation loop of `ChatSession.initialize`
(chat_session.py lines 47-54): extend `all_tools` with each server's
tools, skipping (logging only) servers whose `list_tools` raises --
in particular every server whose own initialization failed. -/
def gatherAllTools (servers : List Server) (behs : List ServerBehavior) :
    List Tool :=
  (servers.zip behs).foldr (fun p acc =>
    (match Server.list_tools p.1 p.2 with
     | Except.ok ts => ts
     | Except.error _ => []) ++ acc) []

/-- The system-instructions text of `ChatSession.initialize`
(chat_session.py lines 59-85), parameterized by the rendered tool
descriptions. -/
def systemMessageText (tools_description : String) : String :=
  "You are a helpful assistant with access to these tools:\n\n" ++
  tools_description ++ "\n" ++
  "Choose the appropriate tool based on the user\x27s question. " ++
  "Before using a tool, reason once before using it.\n\n" ++
  "If no tool is needed, reply directly.\n\n" ++
  "IMPORTANT: When you need to use a tool, you must ONLY respond with " ++
  "the exact JSON object format below, nothing else:\n" ++
  "STRICTLY FOLLOW THE JSON FORMAT BELOW with no ``` or ```:\n" ++
  "\x7b\n" ++
  "    \x22tool\x22: \x22tool-name\x22,\n" ++
  "    \x22arguments\x22: \x7b\n" ++
  "        \x22argument-name\x22: \x22value\x22\n" ++
  "    \x7d\n" ++
  "\x7d\n\n" ++
  "After receiving a tool\x27s response:\n" ++
  "1. Transform the raw data into a natural, conversational response\n" ++
  "2. Keep responses concise but informative\n" ++
  "3. Focus on the most relevant information\n" ++
  "4. Use appropriate context from the user\x27s question\n" ++
  "5. Avoid simply repeating the raw data\n\n" ++
  "Please use only the tools that are explicitly defined above." ++
  "Once tool response is received, transform the raw data into a " ++
  "natural, conversational response." ++
  "If the query is about MCP servers, check if the query mentions what " ++
  "type of MCP server is being asked for. "

/-- `ChatSession.initialize` (chat_session.py lines 37-88): initialize
every server (a failure is logged and skipped), aggregate the tools of
the servers whose `list_tools` succeeds, build the system message from
them, and reset the history to that single system message.  Total by
construction -- both loops catch every exception.  (Named `initSession`
because `initialize` is a Lean keyword.) -/
def ChatSession.initSession (env : Env) (st : ChatSession) : ChatSession :=
  let servers2 := (st.servers.zip env.behs).map
    (fun p => (Server.initServer p.1 p.2).1)
  let all_tools := gatherAllTools servers2 env.behs
  let sysMsg := systemMessageText
    (String.intercalate "\n" (all_tools.map Tool.format_for_llm))
  { messages := [⟨"system", Content.str sysMsg⟩],
    servers := servers2, llmLog := st.llmLog }

/-- The response normalization of `process_message` (chat_session.py
lines 161-166): strip a leading `"AI:"` role prefix, a leading
```` ```json ```` fence and a trailing ```` ``` ```` fence, each only
when present. -/
def normalizeLlmResponse (s : String) : String :=
  let s1 := if strStartsWith s "AI:" then strDropChars s 3 else s
  let s2 := if strStartsWith s1 "```json" then strDropChars s1 7 else s1
  if strEndsWith s2 "```" then strDropRight s2 3 else s2

/-- Python `tool.name == tool_name` where `tool_name` is a parsed JSON
value: true exactly for the equal JSON string. -/
def toolNameMatches (t : Tool) (tn : Json) : Bool :=
  match tn with
  | Json.str s => t.name == s
  | _ => false

/-- The server-selection loop of `process_message` (chat_session.py
lines 179-190): walk the servers in registration order; for each, list
its tools (an exception -- e.g. an uninitialized session -- is caught
and the loop continues), and on the first server advertising the
requested name run `execute_tool` (with the source defaults retries=2,
delay=1) and stop; an execution failure is also caught, and the loop
continues with the remaining servers.  Returns the result together with
the executing server's name (the dispatch target, observable at the
provider). -/
def dispatchLoop (tn args : Json) :
    List (Server × ServerBehavior) → Option (ToolResult × String)
  | [] => none
  | p :: rest =>
    match Server.list_tools p.1 p.2 with
    | Except.error _ => dispatchLoop tn args rest
    | Except.ok tools =>
      if tools.any (fun t => toolNameMatches t tn) then
        match Server.execute_tool p.1 p.2 tn args 2 1 with
        | Except.ok r => some (r, p.1.name)
        | Except.error _ => dispatchLoop tn args rest
      else dispatchLoop tn args rest

/-- Formatting of a successful tool result into the system message
(chat_session.py lines 194-248): the `plan_subway_trip` summarizer for
that tool, `"Tool execution result: " ++ str(result)` otherwise. -/
def formatToolResult (env : Env) (tn : Json) (r : ToolResult) : String :=
  match tn with
  | Json.str s =>
    if s == "plan_subway_trip" then env.subwayFormat r
    else "Tool execution result: " ++ r.asString
  | _ => "Tool execution result: " ++ r.asString

/-- The body of the `try` block of `process_message` after `json.loads`
succeeded (chat_session.py lines 171-267).  Takes the log after the
first LLM call (`log1`) and the history with the user message appended
(`msgs1`); returns the outcome (`Except.error e` models an exception
reaching the enclosing generic handler) together with the message list
and LLM log at that point. -/
def turnBody (env : Env) (svs : List (Server × ServerBehavior))
    (log1 : List (List Message)) (msgs1 : List Message)
    (resp : String) (toolCall : Json) :
    Except String Content × List Message × List (List Message) :=
  let direct : Except String Content × List Message × List (List Message) :=
    (Except.ok (Content.str resp),
     msgs1 ++ [⟨"assistant", Content.str resp⟩], log1)
  match pyContains "tool" toolCall with
  | Except.error e => (Except.error e, msgs1, log1)
  | Except.ok false => direct
  | Except.ok true =>
    match pyContains "arguments" toolCall with
    | Except.error e => (Except.error e, msgs1, log1)
    | Except.ok false => direct
    | Except.ok true =>
      match pySubscript "tool" toolCall with
      | Except.error e => (Except.error e, msgs1, log1)
      | Except.ok tool_name =>
        match pySubscript "arguments" toolCall with
        | Except.error e => (Except.error e, msgs1, log1)
        | Except.ok args =>
          let disp := dispatchLoop tool_name args svs
          let msgs2 := msgs1 ++ [⟨"assistant", Content.str resp⟩]
          match disp with
          | some (r, _srv) =>
            let trs := formatToolResult env tool_name r
            let msgs3 := msgs2 ++ [⟨"system", Content.str trs⟩]
            match env.llm log1.length msgs3 with
            | Except.error e => (Except.error e, msgs3, log1 ++ [msgs3])
            | Except.ok finalResp =>
              (Except.ok (Content.str finalResp),
               msgs3 ++ [⟨"assistant", Content.str finalResp⟩],
               log1 ++ [msgs3])
          | none =>
            let em := "No server found with tool: " ++ pyStr tool_name
            let msgs3 := msgs2 ++ [⟨"system", Content.str em⟩]
            match env.llm log1.length msgs3 with
            | Except.error e => (Except.error e, msgs3, log1 ++ [msgs3])
            | Except.ok finalResp =>
              (Except.ok (Content.str finalResp),
               msgs3 ++ [⟨"assistant", Content.str finalResp⟩],
               log1 ++ [msgs3])

/-- The guard of the MCP special branch (chat_session.py line 105): the
lower-cased user message contains `"list mcp"`, `"available mcp"` or
`"huggingface mcp"`. -/
def mcpTrigger (um : String) : Bool :=
  pyInStr "list mcp" (pyLower um) || pyInStr "available mcp" (pyLower um)
    || pyInStr "huggingface mcp" (pyLower um)

/-- `ChatSession.process_message` (chat_session.py lines 90-278): append
the user message; take the MCP special branch when the lower-cased text
mentions MCP listings (that branch never calls the LLM); otherwise call
the LLM (an exception here is OUTSIDE the `try` of lines 169-278 and
propagates to the caller), normalize the reply, and either treat it as a
direct answer (`json.loads` failure or missing keys) or run the tool
call; any exception inside the `try` is converted by the generic handler
(lines 273-278) into a diagnostic assistant message that is returned.
The result is the returned value (or the propagated exception) together
with the session state as left by the executed appends. -/
def ChatSession.process_message (env : Env) (st : ChatSession)
    (um : String) : Except String Content × ChatSession :=
  let msgs1 := st.messages ++ [⟨"user", Content.str um⟩]
  if mcpTrigger um then
    match env.scrape with
    | Except.error err =>
      let reply := Content.str ("Error fetching MCP list: " ++ err)
      (Except.ok reply, { st with messages := msgs1 ++ [⟨"assistant", reply⟩] })
    | Except.ok mcps =>
      match mcps with
      | [] =>
        let reply :=
          Content.str "No MCP servers found in the awesome-mcp-servers repo."
        (Except.ok reply,
         { st with messages := msgs1 ++ [⟨"assistant", reply⟩] })
      | _ :: _ =>
        match env.search with
        | Except.ok results =>
          let reply := Content.records results
          (Except.ok reply,
           { st with messages := msgs1 ++ [⟨"assistant", reply⟩] })
        | Except.error e =>
          let reply := Content.str ("Error performing semantic search: " ++ e)
          (Except.ok reply,
           { st with messages := msgs1 ++ [⟨"assistant", reply⟩] })
  else
    match env.llm st.llmLog.length msgs1 with
    | Except.error e =>
      (Except.error e,
       { st with messages := msgs1, llmLog := st.llmLog ++ [msgs1] })
    | Except.ok raw =>
      let resp := normalizeLlmResponse raw
      let log1 := st.llmLog ++ [msgs1]
      match json_loads resp with
      | none =>
        (Except.ok (Content.str resp),
         { st with messages := msgs1 ++ [⟨"assistant", Content.str resp⟩],
                   llmLog := log1 })
      | some toolCall =>
        match turnBody env (st.servers.zip env.behs) log1 msgs1 resp toolCall with
        | (Except.ok c, msgs2, log2) =>
          (Except.ok c, { st with messages := msgs2, llmLog := log2 })
        | (Except.error e, msgs2, log2) =>
          let em := "Error processing message: " ++ e
          (Except.ok (Content.str em),
           { st with messages := msgs2 ++ [⟨"assistant", Content.str em⟩],
                     llmLog := log2 })

/-- The tools a connection's provider advertises: the collected tools of
its `list_tools` response (empty when the environment's listing RPC
itself fails). -/
def advertisedTools (b : ServerBehavior) : List Tool :=
  match b.toolsResponse with
  | Except.ok resp => collectTools resp
  | Except.error _ => []

/-- Modelled from the spec sentence on partial-failure tolerance: the
catalogue prescribed after bulk initialization -- exactly the advertised
tools of the connections whose own initialization succeeded, in
registration order. -/
def specCatalogue (ss : List Server) (bs : List ServerBehavior) :
    List Tool :=
  (ss.zip bs).foldr (fun p acc =>
    (if isErr p.2.initOutcome then [] else advertisedTools p.2) ++ acc) []

/-- A connection advertises `tn` when its `list_tools` succeeds and one
of the returned tools bears that name. -/
def advertises (p : Server × ServerBehavior) (tn : Json) : Bool :=
  match Server.list_tools p.1 p.2 with
  | Except.ok ts => ts.any (fun t => toolNameMatches t tn)
  | Except.error _ => false

/-! Concrete fixtures used by the witnesses and counterexamples. -/

/-- Default formatter fixture for `plan_subway_trip` results (the
fixtures never dispatch that tool). -/
def defaultSubway : ToolResult → String :=
  fun r => "Tool execution result: " ++ r.asString

/-- Scrape oracle for fixtures that never take the MCP branch. -/
def noScrape : Except String (List McpRecord) :=
  Except.error "offline"

/-- A live (initialized) server fixture. -/
def srvLive : Server := ⟨"srv1", some ()⟩

/-- A fresh session state holding only system instructions and no
servers. -/
def stSys : ChatSession :=
  ⟨[⟨"system", Content.str "SYS"⟩], [], []⟩

/-- The `echo` tool fixture. -/
def echoTool : Tool := ⟨"echo", "Echo a value", Json.obj []⟩

/-- Behavior of a healthy provider exposing `echo`. -/
def behEcho : ServerBehavior :=
  ⟨Except.ok (), Except.ok [("tools", [echoTool])],
   fun _ _ _ => Except.ok ⟨"x=1"⟩, false⟩

/-- The model text of a well-formed `echo` tool call. -/
def rawEchoCall : String :=
  "\x7b\x22tool\x22: \x22echo\x22, \x22arguments\x22: \x7b\x22x\x22: 1\x7d\x7d"

/-- The parse of `rawEchoCall`. -/
def vEcho : Json :=
  Json.obj [("tool", Json.str "echo"),
            ("arguments", Json.obj [("x", Json.num "1")])]

/-- Environment for the tool-call round trip: first model reply is the
`echo` call, the follow-up reply is the final answer. -/
def envEcho : Env :=
  ⟨fun n _ => if n = 0 then Except.ok rawEchoCall else Except.ok "x was 1",
   [behEcho], noScrape, Except.ok (), Except.error "no chroma",
   defaultSubway⟩

/-- Session state for the round-trip fixtures: system instructions plus
one live server. -/
def stEcho : ChatSession :=
  ⟨[⟨"system", Content.str "SYS"⟩], [srvLive], []⟩

/-- History after appending the round-trip user message. -/
def msgs1Echo : List Message :=
  [⟨"system", Content.str "SYS"⟩, ⟨"user", Content.str "use echo"⟩]

/-- History consumed by the follow-up model call of the round trip. -/
def msgs3Echo : List Message :=
  [⟨"system", Content.str "SYS"⟩, ⟨"user", Content.str "use echo"⟩,
   ⟨"assistant", Content.str rawEchoCall⟩,
   ⟨"system", Content.str "Tool execution result: x=1"⟩]

/-- Environment whose model client always fails. -/
def envOutage : Env :=
  ⟨fun _ _ => Except.error "model outage", [], noScrape, Except.ok (),
   Except.error "no chroma", defaultSubway⟩

/-- Environment whose first model reply is the bare JSON number `5`
(inside the `try`, the membership test `\x22tool\x22 in 5` raises
`TypeError`, exercising the generic turn-boundary handler). -/
def envNum5 : Env :=
  ⟨fun n _ => if n = 0 then Except.ok "5" else Except.ok "unused",
   [], noScrape, Except.ok (), Except.error "no chroma", defaultSubway⟩

/-- The model text of a tool call naming the unadvertised tool
`nope`. -/
def rawNopeCall : String :=
  "\x7b\x22tool\x22: \x22nope\x22, \x22arguments\x22: \x7b\x7d\x7d"

/-- The parse of `rawNopeCall`. -/
def vNope : Json :=
  Json.obj [("tool", Json.str "nope"), ("arguments", Json.obj [])]

/-- Environment for the unknown-tool turn: the model first asks for
`nope`, then apologizes. -/
def envNope : Env :=
  ⟨fun n _ => if n = 0 then Except.ok rawNopeCall
              else Except.ok "I cannot do that",
   [behEcho], noScrape, Except.ok (), Except.error "no chroma",
   defaultSubway⟩

/-- The `nope` tool call wrapped in the code fences the normalization
strips. -/
def rawFenced : String :=
  "```json" ++ rawNopeCall ++ "```"

/-- Environment whose first model reply is the fenced tool call. -/
def envFence : Env :=
  ⟨fun n _ => if n = 0 then Except.ok rawFenced else Except.ok "done",
   [], noScrape, Except.ok (), Except.error "no chroma", defaultSubway⟩

/-- Provider behavior that fails on every `call_tool` attempt except the
third (attempt index 2). -/
def behRetry : ServerBehavior :=
  ⟨Except.ok (), Except.ok [("tools", [echoTool])],
   fun _ _ n => if n = 2 then Except.ok ⟨"third"⟩
                else Except.error "transient",
   false⟩

/-- Tools of the partial-failure scenario. -/
def toolOne : Tool := ⟨"one", "first tool", Json.obj []⟩

/-- Tools of the partial-failure scenario. -/
def toolThree : Tool := ⟨"three", "third tool", Json.obj []⟩

/-- Fresh (uninitialized) servers of the partial-failure scenario. -/
def srvA : Server := ⟨"s1", none⟩

/-- Fresh (uninitialized) servers of the partial-failure scenario. -/
def srvB : Server := ⟨"s2", none⟩

/-- Fresh (uninitialized) servers of the partial-failure scenario. -/
def srvC : Server := ⟨"s3", none⟩

/-- Healthy behavior advertising `toolOne`. -/
def behA : ServerBehavior :=
  ⟨Except.ok (), Except.ok [("tools", [toolOne])],
   fun _ _ _ => Except.ok ⟨"one!"⟩, false⟩

/-- Behavior whose initialization always fails. -/
def behB : ServerBehavior :=
  ⟨Except.error "spawn failed", Except.ok [("tools", [⟨"two", "never seen", Json.obj []⟩])],
   fun _ _ _ => Except.ok ⟨"two!"⟩, false⟩

/-- Healthy behavior advertising `toolThree`. -/
def behC : ServerBehavior :=
  ⟨Except.ok (), Except.ok [("tools", [toolThree])],
   fun _ _ _ => Except.ok ⟨"three!"⟩, false⟩

/-- Environment of the partial-failure scenario (the model client is
never consulted during initialization). -/
def envC4 : Env :=
  ⟨fun _ _ => Except.error "unused", [behA, behB, behC], noScrape,
   Except.ok (), Except.error "no chroma", defaultSubway⟩

/-- Session of the partial-failure scenario: three fresh servers. -/
def stC4 : ChatSession := ⟨[], [srvA, srvB, srvC], []⟩

/-- The duplicated tool of the shadowing scenario. -/
def sharedTool : Tool := ⟨"t", "shared name", Json.obj []⟩

/-- First-registered provider of the shadowing scenario: advertises `t`
but fails every execution attempt. -/
def behShadowFail : ServerBehavior :=
  ⟨Except.ok (), Except.ok [("tools", [sharedTool])],
   fun _ _ _ => Except.error "crash", false⟩

/-- First-registered healthy provider of the shadowing scenario. -/
def behShadowOk1 : ServerBehavior :=
  ⟨Except.ok (), Except.ok [("tools", [sharedTool])],
   fun _ _ _ => Except.ok ⟨"from-s1"⟩, false⟩

/-- Second-registered provider of the shadowing scenario, also
advertising `t`. -/
def behShadowOk2 : ServerBehavior :=
  ⟨Except.ok (), Except.ok [("tools", [sharedTool])],
   fun _ _ _ => Except.ok ⟨"from-s2"⟩, false⟩

/-- Non-advertising connection placed before the shadowing pair (its
session is absent, so `list_tools` raises and the loop skips it). -/
def srvDead : Server := ⟨"s0", none⟩

/-- Behavior of the dead connection. -/
def behDead : ServerBehavior :=
  ⟨Except.error "never up", Except.ok [],
   fun _ _ _ => Except.error "unreachable", false⟩

/-- Second live server fixture. -/
def srvLive2 : Server := ⟨"srv2", some ()⟩

/-- Scraped record fixtures for the MCP branch. -/
def recA : McpRecord := ⟨"alpha-mcp", "https://example.org/a", "first"⟩

/-- Semantic-search result fixture for the MCP branch. -/
def recB : McpRecord := ⟨"beta-mcp", "https://example.org/b", "second"⟩

/-- Environment of the MCP special branch: scraping and semantic search
both succeed; the model client must never be consulted. -/
def envMcp : Env :=
  ⟨fun _ _ => Except.error "llm must not be called", [], Except.ok [recA],
   Except.ok (), Except.ok [recB], defaultSubway⟩

/-! Helper lemmas about the retry loop. -/

/-- If the first `k` attempts fail and attempt `k` succeeds within the
allowed fuel, the loop returns that attempt's result after exactly `k+1`
calls, sleeping `delay` after each failure. -/
theorem execAttempts_ok (call : Nat → Except String ToolResult) (delay : ℚ) :
    ∀ (k a fuel : Nat) (r : ToolResult), k ≤ fuel →
      (∀ i, i < k → isErr (call (a + i)) = true) →
      call (a + k) = Except.ok r →
      execAttempts call delay a fuel = (Except.ok r, k + 1, List.replicate k delay) := by
  intro k
  induction k with
  | zero =>
    intro a fuel r _ _ hk
    simp only [Nat.add_zero] at hk
    simp [execAttempts, hk]
  | succ n ih =>
    intro a fuel r hle herr hk
    have h0 : isErr (call a) = true := by
      have := herr 0 (Nat.succ_pos n)
      simpa using this
    obtain ⟨e, he⟩ : ∃ e, call a = Except.error e := by
      cases hc : call a with
      | ok v => rw [hc] at h0; simp [isErr] at h0
      | error e => exact ⟨e, rfl⟩
    obtain ⟨f, rfl⟩ : ∃ f, fuel = f + 1 := ⟨fuel - 1, by omega⟩
    have ihr := ih (a + 1) f r (by omega)
      (fun i hi => by
        have := herr (i + 1) (by omega)
        simpa [Nat.add_assoc, Nat.add_comm 1 i] using this)
      (by simpa [Nat.add_assoc, Nat.add_comm 1 n] using hk)
    simp [execAttempts, he, ihr, List.replicate_succ]

/-- If every allowed attempt fails, the loop re-raises the last failure
after exactly `fuel + 1` calls. -/
theorem execAttempts_exhaust (call : Nat → Except String ToolResult) (delay : ℚ) :
    ∀ (fuel a : Nat),
      (∀ i, i ≤ fuel → isErr (call (a + i)) = true) →
      ∃ e, call (a + fuel) = Except.error e ∧
        execAttempts call delay a fuel =
          (Except.error e, fuel + 1, List.replicate fuel delay) := by
  intro fuel
  induction fuel with
  | zero =>
    intro a herr
    have h0 := herr 0 (le_refl 0)
    simp only [Nat.add_zero] at h0
    obtain ⟨e, he⟩ : ∃ e, call a = Except.error e := by
      cases hc : call a with
      | ok v => rw [hc] at h0; simp [isErr] at h0
      | error e => exact ⟨e, rfl⟩
    exact ⟨e, by simpa using he, by simp [execAttempts, he]⟩
  | succ n ih =>
    intro a herr
    have h0 := herr 0 (Nat.zero_le _)
    simp only [Nat.add_zero] at h0
    obtain ⟨e0, he0⟩ : ∃ e0, call a = Except.error e0 := by
      cases hc : call a with
      | ok v => rw [hc] at h0; simp [isErr] at h0
      | error e => exact ⟨e, rfl⟩
    obtain ⟨e, hce, hex⟩ := ih (a + 1)
      (fun i hi => by
        have := herr (i + 1) (by omega)
        simpa [Nat.add_assoc, Nat.add_comm 1 i] using this)
    refine ⟨e, by simpa [Nat.add_assoc, Nat.add_comm 1 n] using hce, ?_⟩
    simp [execAttempts, he0, hex, List.replicate_succ]

/-- The loop never makes more than `fuel + 1` underlying calls. -/
theorem execAttempts_bound (call : Nat → Except String ToolResult) (delay : ℚ) :
    ∀ (fuel a : Nat), (execAttempts call delay a fuel).2.1 ≤ fuel + 1 := by
  intro fuel
  induction fuel with
  | zero =>
    intro a
    rw [execAttempts]
    cases hc : call a <;> simp [hc]
  | succ n ih =>
    intro a
    rw [execAttempts]
    cases hc : call a with
    | ok v => simp [hc]
    | error e =>
      have := ih (a + 1)
      simp only [hc]
      simpa using Nat.succ_le_succ this

/-- Claim C3: for every configured retry bound `retries`, `execute_tool`
on an initialized connection makes at most `retries + 1` underlying
attempts; if the attempt with index `k` (the `(k+1)`-th attempt,
`k ≤ retries`) succeeds, it returns that attempt's result with exactly
`k + 1` attempts made and a fixed `delay` slept after each failure; if
every attempt fails it re-raises after exactly `retries + 1` attempts
(with the default `retries = 2` that is 3 attempts); the caller-visible
`execute_tool` result is the first component of the instrumented run. -/
theorem execute_tool_retry_policy (s : Server) (b : ServerBehavior)
    (tn args : Json) (retries : Nat) (delay : ℚ)
    (hs : s.session = some ()) :
    ((Server.execute_tool_runs s b tn args retries delay).2.1 ≤ retries + 1)
    ∧ (∀ k r, k ≤ retries →
        (∀ i, i < k → isErr (b.callTool tn args i) = true) →
        b.callTool tn args k = Except.ok r →
        Server.execute_tool_runs s b tn args retries delay =
          (Except.ok r, k + 1, List.replicate k delay))
    ∧ ((∀ i, i ≤ retries → isErr (b.callTool tn args i) = true) →
        ∃ e, b.callTool tn args retries = Except.error e ∧
          Server.execute_tool_runs s b tn args retries delay =
            (Except.error e, retries + 1, List.replicate retries delay))
    ∧ (Server.execute_tool s b tn args retries delay =
        (Server.execute_tool_runs s b tn args retries delay).1) := by
  have hrw : Server.execute_tool_runs s b tn args retries delay =
      execAttempts (b.callTool tn args) delay 0 retries := by
    simp [Server.execute_tool_runs, hs]
  refine ⟨?_, ?_, ?_, rfl⟩
  · rw [hrw]; exact execAttempts_bound _ _ retries 0
  · intro k r hk herr hok
    rw [hrw]
    exact execAttempts_ok _ _ k 0 retries r hk
      (fun i hi => by simpa using herr i hi) (by simpa using hok)
  · intro herr
    obtain ⟨e, hce, hex⟩ := execAttempts_exhaust (b.callTool tn args) delay retries 0
      (fun i hi => by simpa using herr i hi)
    exact ⟨e, by simpa using hce, by rw [hrw]; exact hex⟩

/-- Witness for C3: a provider failing on attempts 0 and 1 and
succeeding on attempt 2, with `retries = 2`, returns the third attempt's
result after exactly 3 attempts and 2 fixed-delay sleeps. -/
theorem execute_tool_retry_policy_witness :
    (srvLive.session = some ())
    ∧ Server.execute_tool_runs srvLive behRetry (Json.str "echo") (Json.obj []) 2 1 =
        (Except.ok ⟨"third"⟩, 3, List.replicate 2 1) := by
  refine ⟨rfl, ?_⟩
  exact (execute_tool_retry_policy srvLive behRetry (Json.str "echo") (Json.obj []) 2 1 rfl).2.1 2 ⟨"third"⟩
    (by decide)
    (fun i hi => by
      have : i = 0 ∨ i = 1 := by omega
      rcases this with h | h <;> subst h <;> rfl)
    rfl

/-! Helper lemmas about cleanup. -/

/-- Cleanup of a server holding no session is a no-op for any close
outcome. -/
theorem cleanup_noop (s : Server) (hs : s.session = none) (a : Bool) :
    Server.cleanup s a = s := by
  simp [Server.cleanup, Server.cleanupBody, hs]

/-- Iterated cleanup of a session-free server is a no-op. -/
theorem cleanupCalls_noop (rest : List Bool) :
    ∀ (x : Server), x.session = none → cleanupCalls x rest = x := by
  induction rest with
  | nil => intro x _; rfl
  | cons a t ih =>
    intro x hx
    show cleanupCalls (Server.cleanup x a) t = x
    rw [cleanup_noop x hx a]
    exact ih x hx

/-- When the transport close does not raise, cleanup leaves no
session. -/
theorem cleanup_released_session (s : Server) :
    (Server.cleanup s false).session = none := by
  rcases s with ⟨nm, sess⟩
  cases sess <;> simp [Server.cleanup, Server.cleanupBody]

/-- Claim C6 (amended): `cleanup` never propagates an error; when the
transport close succeeds, the first call leaves the session absent and
every subsequent call (with any close outcome) is a no-op; a call on a
server with no session is always a no-op; and a close error is swallowed
with the server state left unchanged (so the session reference
survives a failing close). -/
theorem cleanup_idempotent_amended (s : Server) (rest : List Bool) :
    ((Server.cleanup s false).session = none)
    ∧ (cleanupCalls (Server.cleanup s false) rest = Server.cleanup s false)
    ∧ (s.session = none → ∀ a, Server.cleanup s a = s)
    ∧ (∀ a, isErr (Server.cleanupBody s a) = true → Server.cleanup s a = s) := by
  refine ⟨cleanup_released_session s,
    cleanupCalls_noop rest _ (cleanup_released_session s),
    fun hs a => cleanup_noop s hs a, ?_⟩
  intro a herr
  cases hb : Server.cleanupBody s a with
  | ok s2 => rw [hb] at herr; simp [isErr] at herr
  | error e => simp [Server.cleanup, hb]

/-- Counterexample for C6 as stated: on a live server whose
`exit_stack.aclose()` raises, the first `cleanup` call swallows the
error but does NOT release the stored session. -/
theorem cleanup_counterexample :
    isErr (Server.cleanupBody ⟨"s", some ()⟩ true) = true
    ∧ (Server.cleanup ⟨"s", some ()⟩ true).session = some () :=
  ⟨rfl, rfl⟩

/-- Witness for the amended C6 at a concrete server and call
sequence. -/
theorem cleanup_idempotent_witness :
    ((Server.cleanup ⟨"s", none⟩ false).session = none)
    ∧ (cleanupCalls (Server.cleanup ⟨"s", none⟩ false) [true, false]
        = Server.cleanup ⟨"s", none⟩ false)
    ∧ (Server.cleanup ⟨"s", none⟩ true = ⟨"s", none⟩) :=
  ⟨(cleanup_idempotent_amended ⟨"s", none⟩ [true, false]).1,
   (cleanup_idempotent_amended ⟨"s", none⟩ [true, false]).2.1,
   (cleanup_idempotent_amended ⟨"s", none⟩ [true, false]).2.2.1 rfl true⟩

/-- The tool-aggregation of `ChatSession.initialize` over freshly
constructed (session-free) servers equals the spec-side catalogue of the
successfully initialized connections. -/
theorem gather_init_eq (ss : List Server) :
    ∀ (bs : List ServerBehavior), (∀ s ∈ ss, s.session = none) →
      gatherAllTools ((ss.zip bs).map fun p => (Server.initServer p.1 p.2).1) bs
        = specCatalogue ss bs := by
  induction ss with
  | nil => intro bs _; rfl
  | cons s ss ih =>
    intro bs hfresh
    cases bs with
    | nil => rfl
    | cons b bs =>
      have hs : s.session = none := hfresh s (by simp)
      have ihh := ih bs (fun x hx => hfresh x (by simp [hx]))
      cases hio : b.initOutcome with
      | ok u =>
        cases hto : b.toolsResponse with
        | ok resp =>
          simp [gatherAllTools, specCatalogue, Server.initServer, hio,
            Server.list_tools, advertisedTools, hto, isErr] at ihh ⊢
          exact ihh
        | error e =>
          simp [gatherAllTools, specCatalogue, Server.initServer, hio,
            Server.list_tools, advertisedTools, hto, isErr] at ihh ⊢
          exact ihh
      | error e =>
        simp [gatherAllTools, specCatalogue, Server.initServer, hio,
          cleanup_noop s hs, Server.list_tools, hs, isErr] at ihh ⊢
        exact ihh

/-- Claim C4: when any subset of freshly constructed connections fails
to initialize, `ChatSession.initialize` still completes (it is total by
construction) and produces a history holding exactly one system message
whose tool catalogue is exactly the advertised tools of the successfully
initialized connections, in registration order. -/
theorem bulk_init_partial_failure (env : Env) (st : ChatSession)
    (hfresh : ∀ s ∈ st.servers, s.session = none)
    (_hlist : ∀ b ∈ env.behs, isErr b.toolsResponse = false) :
    ChatSession.initSession env st =
      ⟨[⟨"system", Content.str (systemMessageText (String.intercalate "\n"
          ((specCatalogue st.servers env.behs).map Tool.format_for_llm)))⟩],
       (st.servers.zip env.behs).map (fun p => (Server.initServer p.1 p.2).1),
       st.llmLog⟩ := by
  simp [ChatSession.initSession, gather_init_eq st.servers env.behs hfresh]

/-- Witness for C4: three fresh connections with the second one's
initialization failing; the catalogue is exactly
`[toolOne, toolThree]`. -/
theorem bulk_init_partial_failure_witness :
    (∀ s ∈ stC4.servers, s.session = none)
    ∧ (∀ b ∈ envC4.behs, isErr b.toolsResponse = false)
    ∧ (specCatalogue stC4.servers envC4.behs = [toolOne, toolThree])
    ∧ ChatSession.initSession envC4 stC4 =
      ⟨[⟨"system", Content.str (systemMessageText (String.intercalate "\n"
          ((specCatalogue stC4.servers envC4.behs).map Tool.format_for_llm)))⟩],
       (stC4.servers.zip envC4.behs).map (fun p => (Server.initServer p.1 p.2).1),
       stC4.llmLog⟩ :=
  ⟨by decide, by decide, rfl,
   bulk_init_partial_failure envC4 stC4 (by decide) (by decide)⟩

/-! Helper lemmas about the dispatch loop. -/

/-- The dispatch loop skips every leading connection that does not
advertise the requested name. -/
theorem dispatch_skip (tn args : Json) (l : List (Server × ServerBehavior)) :
    ∀ pre, (∀ p ∈ pre, advertises p tn = false) →
      dispatchLoop tn args (pre ++ l) = dispatchLoop tn args l := by
  intro pre
  induction pre with
  | nil => intro _; rfl
  | cons p t ih =>
    intro h
    have hp : advertises p tn = false := h p (by simp)
    have ht := ih (fun q hq => h q (by simp [hq]))
    show dispatchLoop tn args (p :: (t ++ l)) = _
    cases hlt : Server.list_tools p.1 p.2 with
    | error e => simp [dispatchLoop, hlt, ht]
    | ok ts =>
      have hany : ts.any (fun t2 => toolNameMatches t2 tn) = false := by
        simpa [advertises, hlt] using hp
      simp [dispatchLoop, hlt, hany, ht]

/-- When no connection advertises the requested name, the dispatch loop
finds no result. -/
theorem dispatch_none (tn args : Json) (svs : List (Server × ServerBehavior))
    (h : ∀ p ∈ svs, advertises p tn = false) :
    dispatchLoop tn args svs = none := by
  have := dispatch_skip tn args [] svs h
  simpa using this

/-- Claim C7 (amended): dispatch walks the connections in registration
order; the earliest connection advertising the requested name is tried
first, and when its execution succeeds it receives the call exclusively
(the result and executing server are its own); but when its execution
raises (e.g. after retry exhaustion) the loop falls through to the
remaining connections, so a later connection advertising the same name
can receive the call. -/
theorem duplicate_name_dispatch (pre post : List (Server × ServerBehavior))
    (s : Server) (b : ServerBehavior) (tn args : Json)
    (hpre : ∀ p ∈ pre, advertises p tn = false)
    (hadv : advertises (s, b) tn = true) :
    (∀ r, Server.execute_tool s b tn args 2 1 = Except.ok r →
        dispatchLoop tn args (pre ++ (s, b) :: post) = some (r, s.name))
    ∧ (isErr (Server.execute_tool s b tn args 2 1) = true →
        dispatchLoop tn args (pre ++ (s, b) :: post) = dispatchLoop tn args post) := by
  have hskip := dispatch_skip tn args ((s, b) :: post) pre hpre
  obtain ⟨ts, hlt, hany⟩ : ∃ ts, Server.list_tools s b = Except.ok ts ∧
      ts.any (fun t2 => toolNameMatches t2 tn) = true := by
    unfold advertises at hadv
    cases hlt : Server.list_tools s b with
    | ok ts => rw [hlt] at hadv; exact ⟨ts, rfl, hadv⟩
    | error e => rw [hlt] at hadv; cases hadv
  constructor
  · intro r hok
    rw [hskip]
    simp [dispatchLoop, hlt, hany, hok]
  · intro herr
    rw [hskip]
    cases hex : Server.execute_tool s b tn args 2 1 with
    | ok r => rw [hex] at herr; simp [isErr] at herr
    | error e => simp [dispatchLoop, hlt, hany, hex]

/-- Counterexample for C7 as stated: two connections advertise `t`; the
first one's execution always fails, and the SECOND connection receives
the call and supplies the result -- a later connection advertising the
same name can be dispatched to. -/
theorem duplicate_name_counterexample :
    (advertises (srvLive, behShadowFail) (Json.str "t") = true)
    ∧ (advertises (srvLive2, behShadowOk2) (Json.str "t") = true)
    ∧ dispatchLoop (Json.str "t") (Json.obj [])
        [(srvLive, behShadowFail), (srvLive2, behShadowOk2)]
        = some (⟨"from-s2"⟩, "srv2") :=
  ⟨rfl, rfl, rfl⟩

/-- Witness for the amended C7: with a non-advertising connection first,
the earliest advertising connection wins when it succeeds, and dispatch
falls through past it when it fails. -/
theorem duplicate_name_dispatch_witness :
    (dispatchLoop (Json.str "t") (Json.obj [])
        [(srvDead, behDead), (srvLive, behShadowOk1), (srvLive2, behShadowOk2)]
        = some (⟨"from-s1"⟩, "srv1"))
    ∧ (dispatchLoop (Json.str "t") (Json.obj [])
        [(srvDead, behDead), (srvLive, behShadowFail), (srvLive2, behShadowOk2)]
        = dispatchLoop (Json.str "t") (Json.obj []) [(srvLive2, behShadowOk2)]) :=
  ⟨(duplicate_name_dispatch [(srvDead, behDead)] [(srvLive2, behShadowOk2)]
      srvLive behShadowOk1 (Json.str "t") (Json.obj [])
      (by decide) rfl).1 ⟨"from-s1"⟩ rfl,
   (duplicate_name_dispatch [(srvDead, behDead)] [(srvLive2, behShadowOk2)]
      srvLive behShadowFail (Json.str "t") (Json.obj [])
      (by decide) rfl).2 rfl⟩

/-! Helper lemmas about the shape of the per-turn message history. -/

/-- Reassociation of three appended segments. -/
theorem append_shape3 {α : Type} (l x y z : List α) :
    ((l ++ x) ++ y) ++ z = l ++ (x ++ (y ++ z)) := by
  simp [List.append_assoc]

/-- Every branch of the tool-call body only appends to the incoming
history. -/
theorem turnBody_shape (env : Env) (svs : List (Server × ServerBehavior))
    (log1 : List (List Message)) (msgs1 : List Message)
    (resp : String) (tc : Json) :
    ∃ t, (turnBody env svs log1 msgs1 resp tc).2.1 = msgs1 ++ t := by
  unfold turnBody
  dsimp only
  repeat' split
  all_goals first
    | exact ⟨[], (List.append_nil _).symm⟩
    | exact ⟨_, rfl⟩
    | exact ⟨_, List.append_assoc _ _ _⟩
    | exact ⟨_, append_shape3 _ _ _ _⟩

/-- Every branch of `process_message` only appends to the session's
history. -/
theorem process_message_shape (env : Env) (st : ChatSession) (um : String) :
    ∃ t, (ChatSession.process_message env st um).2.messages
      = st.messages ++ t := by
  unfold ChatSession.process_message
  dsimp only
  split
  · split
    · exact ⟨_, List.append_assoc _ _ _⟩
    · split
      · exact ⟨_, List.append_assoc _ _ _⟩
      · split
        · exact ⟨_, List.append_assoc _ _ _⟩
        · exact ⟨_, List.append_assoc _ _ _⟩
  · split
    · exact ⟨_, rfl⟩
    · split
      · exact ⟨_, List.append_assoc _ _ _⟩
      · split
        · next c msgs2 log2 heq =>
          obtain ⟨t, ht⟩ := turnBody_shape env (st.servers.zip env.behs) _ _ _ _
          rw [heq] at ht
          dsimp only at ht
          exact ⟨⟨"user", Content.str um⟩ :: t,
            by rw [ht, List.append_assoc]; rfl⟩
        · next e msgs2 log2 heq =>
          obtain ⟨t, ht⟩ := turnBody_shape env (st.servers.zip env.behs) _ _ _ _
          rw [heq] at ht
          dsimp only at ht
          exact ⟨(⟨"user", Content.str um⟩ :: t) ++
            [⟨"assistant", Content.str ("Error processing message: " ++ e)⟩],
            by rw [ht, append_shape3]; rfl⟩

/-- Claim C9: every turn preserves the append-only history invariant:
the history before a `process_message` call is a prefix of the history
after it, and in particular the leading system-instructions message is
never removed or replaced. -/
theorem history_append_only (env : Env) (st : ChatSession) (um : String) :
    (st.messages <+: (ChatSession.process_message env st um).2.messages)
    ∧ (∀ m ms, st.messages = m :: ms →
        ∃ tail, (ChatSession.process_message env st um).2.messages = m :: tail) := by
  obtain ⟨t, ht⟩ := process_message_shape env st um
  constructor
  · exact ⟨t, ht.symm⟩
  · intro m ms hm
    refine ⟨ms ++ t, ?_⟩
    rw [ht, hm]
    simp

/-- Witness for C9 at a concrete session whose model client fails (the
turn that propagates an exception still only appends). -/
theorem history_append_only_witness :
    (stSys.messages <+: (ChatSession.process_message envOutage stSys "ping").2.messages)
    ∧ (∃ tail, (ChatSession.process_message envOutage stSys "ping").2.messages
        = ⟨"system", Content.str "SYS"⟩ :: tail) :=
  ⟨(history_append_only envOutage stSys "ping").1,
   (history_append_only envOutage stSys "ping").2 ⟨"system", Content.str "SYS"⟩ [] rfl⟩

/-- Claim C2: in a turn whose first model reply parses as a tool call
whose tool some connection successfully executes, the history ends with
exactly five messages in order -- system instructions, user, assistant
(the tool-call JSON), system (the formatted tool result), assistant
(final reply) -- the tool-result message is part of the history consumed
by the follow-up model call (second entry of the call log), and the
returned value is the final reply. -/
theorem tool_call_round_trip (env : Env) (servers : List Server)
    (llmLog : List (List Message)) (um sysText raw : String)
    (v tn args : Json) (r : ToolResult) (srv : String) (finalResp : String)
    (hmc : mcpTrigger um = false)
    (h0 : env.llm llmLog.length
        [⟨"system", Content.str sysText⟩, ⟨"user", Content.str um⟩] = Except.ok raw)
    (hparse : json_loads (normalizeLlmResponse raw) = some v)
    (htool : pyContains "tool" v = Except.ok true)
    (hargs : pyContains "arguments" v = Except.ok true)
    (hname : pySubscript "tool" v = Except.ok tn)
    (hargv : pySubscript "arguments" v = Except.ok args)
    (hdisp : dispatchLoop tn args (servers.zip env.behs) = some (r, srv))
    (hfinal : env.llm (llmLog.length + 1)
        [⟨"system", Content.str sysText⟩, ⟨"user", Content.str um⟩,
         ⟨"assistant", Content.str (normalizeLlmResponse raw)⟩,
         ⟨"system", Content.str (formatToolResult env tn r)⟩] = Except.ok finalResp) :
    ChatSession.process_message env ⟨[⟨"system", Content.str sysText⟩], servers, llmLog⟩ um =
      (Except.ok (Content.str finalResp),
       ⟨[⟨"system", Content.str sysText⟩, ⟨"user", Content.str um⟩,
         ⟨"assistant", Content.str (normalizeLlmResponse raw)⟩,
         ⟨"system", Content.str (formatToolResult env tn r)⟩,
         ⟨"assistant", Content.str finalResp⟩],
        servers,
        llmLog ++
          [[⟨"system", Content.str sysText⟩, ⟨"user", Content.str um⟩],
           [⟨"system", Content.str sysText⟩, ⟨"user", Content.str um⟩,
            ⟨"assistant", Content.str (normalizeLlmResponse raw)⟩,
            ⟨"system", Content.str (formatToolResult env tn r)⟩]]⟩) := by
  simp [ChatSession.process_message, turnBody, hmc, h0, hparse, htool, hargs,
    hname, hargv, hdisp, hfinal]

/-- Witness for C2: the `echo` round trip of the spec returns the final
reply with the five-message history. -/
theorem tool_call_round_trip_witness :
    ChatSession.process_message envEcho stEcho "use echo" =
      (Except.ok (Content.str "x was 1"),
       ⟨[⟨"system", Content.str "SYS"⟩, ⟨"user", Content.str "use echo"⟩,
         ⟨"assistant", Content.str rawEchoCall⟩,
         ⟨"system", Content.str "Tool execution result: x=1"⟩,
         ⟨"assistant", Content.str "x was 1"⟩],
        [srvLive], [msgs1Echo, msgs3Echo]⟩) :=
  tool_call_round_trip envEcho [srvLive] [] "use echo" "SYS" rawEchoCall vEcho
    (Json.str "echo") (Json.obj [("x", Json.num "1")]) ⟨"x=1"⟩ "srv1" "x was 1"
    rfl rfl rfl rfl rfl rfl rfl rfl rfl

/-- Claim C5: when the model names a tool no live connection advertises,
the turn does not throw: a system message describing the unknown tool is
appended, the Model Client is invoked a second time on the extended
history, its reply is appended as an assistant message, and that reply
is returned. -/
theorem unknown_tool_recovery (env : Env) (st : ChatSession) (um raw : String)
    (v tn args : Json) (finalResp : String)
    (hmc : mcpTrigger um = false)
    (h0 : env.llm st.llmLog.length
        (st.messages ++ [⟨"user", Content.str um⟩]) = Except.ok raw)
    (hparse : json_loads (normalizeLlmResponse raw) = some v)
    (htool : pyContains "tool" v = Except.ok true)
    (hargs : pyContains "arguments" v = Except.ok true)
    (hname : pySubscript "tool" v = Except.ok tn)
    (hargv : pySubscript "arguments" v = Except.ok args)
    (hnone : ∀ p ∈ st.servers.zip env.behs, advertises p tn = false)
    (hfinal : env.llm (st.llmLog.length + 1)
        (st.messages ++ [⟨"user", Content.str um⟩,
          ⟨"assistant", Content.str (normalizeLlmResponse raw)⟩,
          ⟨"system", Content.str ("No server found with tool: " ++ pyStr tn)⟩])
        = Except.ok finalResp) :
    ChatSession.process_message env st um =
      (Except.ok (Content.str finalResp),
       ⟨st.messages ++ [⟨"user", Content.str um⟩,
          ⟨"assistant", Content.str (normalizeLlmResponse raw)⟩,
          ⟨"system", Content.str ("No server found with tool: " ++ pyStr tn)⟩,
          ⟨"assistant", Content.str finalResp⟩],
        st.servers,
        st.llmLog ++
          [st.messages ++ [⟨"user", Content.str um⟩],
           st.messages ++ [⟨"user", Content.str um⟩,
             ⟨"assistant", Content.str (normalizeLlmResponse raw)⟩,
             ⟨"system", Content.str ("No server found with tool: " ++ pyStr tn)⟩]]⟩) := by
  have hdisp : dispatchLoop tn args (st.servers.zip env.behs) = none :=
    dispatch_none tn args _ hnone
  simp [ChatSession.process_message, turnBody, hmc, h0, hparse, htool, hargs,
    hname, hargv, hdisp, hfinal]

/-- Witness for C5: the `nope` call against a connection advertising
only `echo` yields the apologetic final reply with the unknown-tool
system message in between. -/
theorem unknown_tool_recovery_witness :
    ChatSession.process_message envNope stEcho "call nope" =
      (Except.ok (Content.str "I cannot do that"),
       ⟨[⟨"system", Content.str "SYS"⟩, ⟨"user", Content.str "call nope"⟩,
         ⟨"assistant", Content.str rawNopeCall⟩,
         ⟨"system", Content.str "No server found with tool: nope"⟩,
         ⟨"assistant", Content.str "I cannot do that"⟩],
        [srvLive],
        [[⟨"system", Content.str "SYS"⟩, ⟨"user", Content.str "call nope"⟩],
         [⟨"system", Content.str "SYS"⟩, ⟨"user", Content.str "call nope"⟩,
          ⟨"assistant", Content.str rawNopeCall⟩,
          ⟨"system", Content.str "No server found with tool: nope"⟩]]⟩) :=
  unknown_tool_recovery envNope stEcho "call nope" rawNopeCall vNope
    (Json.str "nope") (Json.obj []) "I cannot do that"
    rfl rfl rfl rfl rfl rfl rfl (by decide) rfl

/-- Claim C8 (amended): when the model reply is recognized as a tool
call, the assistant message recorded in the history is the NORMALIZED
text `normalizeLlmResponse raw` -- exactly the text handed to the JSON
parser -- not the pre-normalization model output (the `llm_response`
variable is reassigned by the strips of lines 161-166 before the append
at line 192). -/
theorem tool_call_history_normalized (env : Env) (st : ChatSession)
    (um raw : String) (v tn args : Json)
    (hmc : mcpTrigger um = false)
    (h0 : env.llm st.llmLog.length
        (st.messages ++ [⟨"user", Content.str um⟩]) = Except.ok raw)
    (hparse : json_loads (normalizeLlmResponse raw) = some v)
    (htool : pyContains "tool" v = Except.ok true)
    (hargs : pyContains "arguments" v = Except.ok true)
    (hname : pySubscript "tool" v = Except.ok tn)
    (hargv : pySubscript "arguments" v = Except.ok args) :
    ∃ rest, (ChatSession.process_message env st um).2.messages =
      st.messages ++ ⟨"user", Content.str um⟩ ::
        ⟨"assistant", Content.str (normalizeLlmResponse raw)⟩ :: rest := by
  cases hdp : dispatchLoop tn args (st.servers.zip env.behs) with
  | some pr =>
    obtain ⟨r, srv⟩ := pr
    cases hfl : env.llm (st.llmLog.length + 1)
        (st.messages ++ [⟨"user", Content.str um⟩,
          ⟨"assistant", Content.str (normalizeLlmResponse raw)⟩,
          ⟨"system", Content.str (formatToolResult env tn r)⟩]) with
    | ok fr =>
      refine ⟨[⟨"system", Content.str (formatToolResult env tn r)⟩,
        ⟨"assistant", Content.str fr⟩], ?_⟩
      simp [ChatSession.process_message, turnBody, hmc, h0, hparse, htool,
        hargs, hname, hargv, hdp, hfl]
    | error e =>
      refine ⟨[⟨"system", Content.str (formatToolResult env tn r)⟩,
        ⟨"assistant", Content.str ("Error processing message: " ++ e)⟩], ?_⟩
      simp [ChatSession.process_message, turnBody, hmc, h0, hparse, htool,
        hargs, hname, hargv, hdp, hfl]
  | none =>
    cases hfl : env.llm (st.llmLog.length + 1)
        (st.messages ++ [⟨"user", Content.str um⟩,
          ⟨"assistant", Content.str (normalizeLlmResponse raw)⟩,
          ⟨"system", Content.str ("No server found with tool: " ++ pyStr tn)⟩]) with
    | ok fr =>
      refine ⟨[⟨"system", Content.str ("No server found with tool: " ++ pyStr tn)⟩,
        ⟨"assistant", Content.str fr⟩], ?_⟩
      simp [ChatSession.process_message, turnBody, hmc, h0, hparse, htool,
        hargs, hname, hargv, hdp, hfl]
    | error e =>
      refine ⟨[⟨"system", Content.str ("No server found with tool: " ++ pyStr tn)⟩,
        ⟨"assistant", Content.str ("Error processing message: " ++ e)⟩], ?_⟩
      simp [ChatSession.process_message, turnBody, hmc, h0, hparse, htool,
        hargs, hname, hargv, hdp, hfl]

/-- Witness for the amended C8: the fenced `nope` call is recorded
normalized (as `rawNopeCall`). -/
theorem tool_call_history_normalized_witness :
    ∃ rest, (ChatSession.process_message envFence stSys "hi").2.messages =
      [⟨"system", Content.str "SYS"⟩] ++ ⟨"user", Content.str "hi"⟩ ::
        ⟨"assistant", Content.str rawNopeCall⟩ :: rest :=
  tool_call_history_normalized envFence stSys "hi" rawFenced vNope
    (Json.str "nope") (Json.obj []) rfl rfl rfl rfl rfl rfl rfl

/-- Counterexample for C8 as stated: the model output is wrapped in a
```` ```json ```` fence; the assistant message recorded at index 2 holds
the stripped text, which differs from the raw model output. -/
theorem raw_text_counterexample :
    ((ChatSession.process_message envFence stSys "hi there").2.messages.get? 2 =
      some ⟨"assistant", Content.str rawNopeCall⟩)
    ∧ rawNopeCall ≠ rawFenced :=
  ⟨rfl, by decide⟩

/-- Claim C1 (amended): an exception raised while HANDLING the obtained
model reply (parsing, dispatch, the follow-up model call) is caught at
the turn boundary, appended as an assistant-role diagnostic message
`"Error processing message: ..."` and that string is returned; but an
exception raised by the INITIAL Model Client call (chat_session.py line
159, outside the `try` of lines 169-278) propagates to the caller. -/
theorem turn_boundary_error_handling (env : Env) (st : ChatSession) (um : String)
    (hmc : mcpTrigger um = false) :
    (∀ e, env.llm st.llmLog.length
        (st.messages ++ [⟨"user", Content.str um⟩]) = Except.error e →
        (ChatSession.process_message env st um).1 = Except.error e)
    ∧ (∀ raw v e msgs2 log2,
        env.llm st.llmLog.length
          (st.messages ++ [⟨"user", Content.str um⟩]) = Except.ok raw →
        json_loads (normalizeLlmResponse raw) = some v →
        turnBody env (st.servers.zip env.behs)
          (st.llmLog ++ [st.messages ++ [⟨"user", Content.str um⟩]])
          (st.messages ++ [⟨"user", Content.str um⟩])
          (normalizeLlmResponse raw) v = (Except.error e, msgs2, log2) →
        ChatSession.process_message env st um =
          (Except.ok (Content.str ("Error processing message: " ++ e)),
           ⟨msgs2 ++ [⟨"assistant", Content.str ("Error processing message: " ++ e)⟩],
            st.servers, log2⟩)) := by
  constructor
  · intro e he
    simp [ChatSession.process_message, hmc, he]
  · intro raw v e msgs2 log2 h0 hparse htb
    simp [ChatSession.process_message, hmc, h0, hparse, htb]

/-- Counterexample for C1 as stated: when the Model Client raises on the
initial call of a turn, `process_message` propagates that exception to
the caller instead of returning a string. -/
theorem turn_boundary_counterexample :
    (ChatSession.process_message envOutage stSys "hello").1
      = Except.error "model outage" := rfl

/-- Witness for the amended C1: the initial-call failure propagates, and
a `TypeError` raised while testing the parsed reply for the `tool` key
is converted into the diagnostic assistant reply. -/
theorem turn_boundary_error_handling_witness :
    ((ChatSession.process_message envOutage stSys "ping me").1
        = Except.error "model outage")
    ∧ (ChatSession.process_message envNum5 stSys "hi there" =
        (Except.ok (Content.str
          "Error processing message: TypeError: argument is not iterable"),
         ⟨[⟨"system", Content.str "SYS"⟩, ⟨"user", Content.str "hi there"⟩,
           ⟨"assistant", Content.str
             "Error processing message: TypeError: argument is not iterable"⟩],
          [], [[⟨"system", Content.str "SYS"⟩, ⟨"user", Content.str "hi there"⟩]]⟩)) :=
  ⟨(turn_boundary_error_handling envOutage stSys "ping me" rfl).1
      "model outage" rfl,
   (turn_boundary_error_handling envNum5 stSys "hi there" rfl).2
      "5" (Json.num "5") "TypeError: argument is not iterable"
      [⟨"system", Content.str "SYS"⟩, ⟨"user", Content.str "hi there"⟩]
      [[⟨"system", Content.str "SYS"⟩, ⟨"user", Content.str "hi there"⟩]]
      rfl rfl rfl⟩

/-- Claim C10: a user message matching the MCP-listing guard takes the
special branch: the Model Client is never invoked (the call log is
unchanged), and on the successful scrape + semantic-search path the
value appended to the history and returned is the list of
name/link/description records -- not a string. -/
theorem mcp_branch_no_llm (env : Env) (st : ChatSession) (um : String)
    (htrig : mcpTrigger um = true) :
    ((ChatSession.process_message env st um).2.llmLog = st.llmLog)
    ∧ ((ChatSession.process_message env st um).2.servers = st.servers)
    ∧ (∀ m mcps results, env.scrape = Except.ok (m :: mcps) →
        env.search = Except.ok results →
        ChatSession.process_message env st um =
          (Except.ok (Content.records results),
           ⟨st.messages ++ [⟨"user", Content.str um⟩,
             ⟨"assistant", Content.records results⟩],
            st.servers, st.llmLog⟩)) := by
  refine ⟨?_, ?_, ?_⟩
  · cases hs : env.scrape with
    | error e => simp [ChatSession.process_message, htrig, hs]
    | ok mcps =>
      cases mcps with
      | nil => simp [ChatSession.process_message, htrig, hs]
      | cons m0 t =>
        cases hq : env.search with
        | ok results => simp [ChatSession.process_message, htrig, hs, hq]
        | error e => simp [ChatSession.process_message, htrig, hs, hq]
  · cases hs : env.scrape with
    | error e => simp [ChatSession.process_message, htrig, hs]
    | ok mcps =>
      cases mcps with
      | nil => simp [ChatSession.process_message, htrig, hs]
      | cons m0 t =>
        cases hq : env.search with
        | ok results => simp [ChatSession.process_message, htrig, hs, hq]
        | error e => simp [ChatSession.process_message, htrig, hs, hq]
  · intro m mcps results h1 h2
    simp [ChatSession.process_message, htrig, h1, h2]

/-- Witness for C10: `"list mcp please"` with a successful scrape and
search returns the record list and never touches the model client. -/
theorem mcp_branch_no_llm_witness :
    (mcpTrigger "list mcp please" = true)
    ∧ ChatSession.process_message envMcp stSys "list mcp please" =
        (Except.ok (Content.records [recB]),
         ⟨[⟨"system", Content.str "SYS"⟩, ⟨"user", Content.str "list mcp please"⟩,
           ⟨"assistant", Content.records [recB]⟩], [], []⟩) :=
  ⟨rfl, (mcp_branch_no_llm envMcp stSys "list mcp please" rfl).2.2
      recA [] [recB] rfl rfl⟩
